import Mathlib

/-!
Shallow embedding of `src/logger.py` and `src/handler_helpers.py` of the
simple_py_logger repository.

The Python module wraps the standard `logging` runtime: a `Logger` (pydantic)
configuration object owns two string-keyed registries (formatters, handlers)
and keeps one live `logging.Logger` instance, obtained from the runtime's
name-keyed singleton registry via `logging.getLogger`, in sync with the
handler registry through explicit `setup_logger` / `add_handler_logger` /
`remove_handler_logger` calls.

Modelling choices:
- numeric log levels are the `logging` module constants (10..50);
- the filesystem is a set of existing paths plus the current working
  directory and one flag saying whether `os.makedirs` succeeds;
- handlers and formatters are structures carrying an allocation counter
  `hid` / `fid`, so structural equality coincides with Python object
  identity (each `create_*_handler` call yields a fresh object);
- Python dicts are insertion-ordered association lists with unique keys:
  overwriting a key keeps its position, a new key is appended;
- the runtime's name-keyed logger registry is part of the state, and
  `self.logger` is represented by the name of the bound instance (exact,
  because `logging.getLogger` returns the per-name singleton);
- `logger.setLevel(x)` stores its argument: the code passes
  `_std_log_level(log_level) or self.log_level`, whose Python value is an
  `int` or, were the `or` fallback ever taken, the stored level string, so
  the stored argument has type `Nat ⊕ String`;
- operations that can raise (`AttributeError` on an unbound live logger,
  `KeyError` on a missing dict entry, `UnboundLocalError` in
  `get_handler`, `RuntimeError` in `_derive_log_path`) return
  `Option`/`Except`, with `none`/`error` marking the exception.
-/

namespace PyLogger

/-! ### Numeric level constants of the `logging` runtime -/

def DEBUG : Nat := 10

def INFO : Nat := 20

def WARNING : Nat := 30

def ERROR : Nat := 40

def CRITICAL : Nat := 50

/-! ### Filesystem model -/

/-- The filesystem as seen by `os.path.exists` / `os.makedirs` / `os.getcwd`:
the current working directory, the set of existing paths, and whether a
`makedirs` call would succeed (permissions etc.). -/
structure FS where
  cwd : String
  existing : List String
  mkdirOk : Bool
deriving DecidableEq, Repr

/-- `_check_path(user_path)`: `os.path.exists` on the modelled filesystem. -/
def _check_path (fs : FS) (user_path : String) : Bool :=
  fs.existing.contains user_path

/-- Python `str.upper()`, character-wise. This equals Lean's
`String.toUpper`, but is spelled through `List.map` so that it reduces
inside the kernel (`String.mapAux` does not). -/
def pyUpper (s : String) : String :=
  String.mk (s.data.map Char.toUpper)

/-- `_std_log_level(log_level_str)`: `None` is replaced by `"DEBUG"`, then the
upper-cased string is matched against the five level names, any other string
falling through to `INFO`. -/
def _std_log_level (log_level_str : Option String) : Nat :=
  let s :=
    match log_level_str with
    | none => "DEBUG"
    | some s => s
  match pyUpper s with
  | "DEBUG" => DEBUG
  | "INFO" => INFO
  | "WARNING" => WARNING
  | "ERROR" => ERROR
  | "CRITICAL" => CRITICAL
  | _ => INFO

/-- `_derive_log_path(log_path)`: if `log_path` is `None` or
`cwd + "/" + log_path` does not exist, create (if missing) and return
`cwd + "/logs"`, a failing `os.makedirs` being re-raised as `RuntimeError`;
otherwise return `cwd + "/" + log_path` with the filesystem untouched. -/
def _derive_log_path (fs : FS) (log_path : Option String) : Except String (String × FS) :=
  let cwd_path := fs.cwd
  let fallback : Unit → Except String (String × FS) := fun _ =>
    let log_dir := cwd_path ++ "/logs"
    if _check_path fs log_dir then
      Except.ok (log_dir, fs)
    else if fs.mkdirOk then
      Except.ok (log_dir, { fs with existing := log_dir :: fs.existing })
    else
      Except.error "Error resolving log path"
  match log_path with
  | none => fallback ()
  | some p =>
    if _check_path fs (cwd_path ++ "/" ++ p) then
      Except.ok (cwd_path ++ "/" ++ p, fs)
    else
      fallback ()

/-! ### Formatters and handlers -/

/-- A `logging.Formatter` instance, identified by its allocation id. -/
structure Formatter where
  fid : Nat
deriving DecidableEq, Repr

/-- `Logger.DEFAULT_FORMATTER`, the one class-level formatter object. -/
def DEFAULT_FORMATTER : Formatter := { fid := 0 }

/-- The handler variants used by `logger.py`: the file variant records the
path the handler writes to. -/
inductive HandlerKind where
  | console
  | richConsole
  | file (log_path : String)
deriving DecidableEq, Repr

/-- A `logging.Handler` instance: allocation id (object identity), variant,
level threshold and attached formatter id. -/
structure Handler where
  hid : Nat
  kind : HandlerKind
  level : Nat
  formatter : Nat
deriving DecidableEq, Repr

/-- `handler_helpers.create_console_handler`. -/
def create_console_handler (hid : Nat) (log_level_int : Nat) (formatter : Formatter) : Handler :=
  { hid := hid, kind := HandlerKind.console, level := log_level_int, formatter := formatter.fid }

/-- `handler_helpers.create_rich_console_handler`. -/
def create_rich_console_handler (hid : Nat) (log_level_int : Nat) (formatter : Formatter) : Handler :=
  { hid := hid, kind := HandlerKind.richConsole, level := log_level_int, formatter := formatter.fid }

/-- `handler_helpers.create_file_handler`. -/
def create_file_handler (hid : Nat) (log_level_int : Nat) (formatter : Formatter)
    (log_path : String) : Handler :=
  { hid := hid, kind := HandlerKind.file log_path, level := log_level_int,
    formatter := formatter.fid }

/-! ### Python dict model (insertion-ordered association list, unique keys) -/

/-- Lookup in a Python dict (the lists are built by `dictInsert` only, so
keys are unique and first-match lookup is exact). -/
def dictLookup {α : Type} : List (String × α) → String → Option α
  | [], _ => none
  | p :: t, k => if p.1 = k then some p.2 else dictLookup t k

/-- `k in d` for a Python dict. -/
def dictMem {α : Type} (d : List (String × α)) (k : String) : Bool :=
  d.any (fun p => p.1 == k)

/-- `d[k] = v` for a Python dict: an existing key keeps its position, a new
key is appended at the end. -/
def dictInsert {α : Type} : List (String × α) → String → α → List (String × α)
  | [], k, v => [(k, v)]
  | p :: t, k, v => if p.1 = k then (k, v) :: t else p :: dictInsert t k v

/-- `d.values()` for a Python dict. -/
def dictValues {α : Type} (d : List (String × α)) : List α :=
  d.map (fun p => p.2)

/-! ### The runtime's logger instances -/

/-- One `logging.Logger` instance of the runtime: the argument last passed to
`setLevel` (an int, or the stored level string if the dead `or` fallback were
ever taken), the list of attached handlers, and the propagate flag. -/
structure LoggerInst where
  levelArg : Nat ⊕ String
  hs : List Handler
  propagate : Bool
deriving DecidableEq, Repr

/-- A logger fresh out of `logging.getLogger`: level `NOTSET`, no handlers,
propagating to the root logger. -/
def freshLoggerInst : LoggerInst :=
  { levelArg := Sum.inl 0, hs := [], propagate := true }

/-- `logging.getLogger(n)` on the runtime's name-keyed registry. -/
def getLoggerInst (loggers : List (String × LoggerInst)) (n : String) : LoggerInst :=
  (dictLookup loggers n).getD freshLoggerInst

/-- Store the (mutated) instance back under its name. -/
def setLoggerInst (loggers : List (String × LoggerInst)) (n : String) (inst : LoggerInst) :
    List (String × LoggerInst) :=
  dictInsert loggers n inst

/-- `logger.addHandler(h)`: appends unless the handler is already attached. -/
def addHandler (inst : LoggerInst) (h : Handler) : LoggerInst :=
  if h ∈ inst.hs then inst else { inst with hs := inst.hs ++ [h] }

/-- The attach loop of `setup_logger`:
`for key in self.handlers: logger.addHandler(self.handlers[key])`,
iterating the registry in insertion order. -/
def attachAll (inst : LoggerInst) (registry : List (String × Handler)) : LoggerInst :=
  registry.foldl (fun acc kv => addHandler acc kv.2) inst

/-- Remove the first occurrence of a handler from a list (Python
`list.remove` inside `logger.removeHandler`). -/
def eraseHandler (l : List Handler) (h : Handler) : List Handler :=
  match l with
  | [] => []
  | x :: xs => if x = h then xs else x :: eraseHandler xs h

/-- `logger.removeHandler(h)`: removes the handler if attached. -/
def removeHandler (inst : LoggerInst) (h : Handler) : LoggerInst :=
  { inst with hs := eraseHandler inst.hs h }

/-! ### The `Logger` configuration object plus the ambient runtime state -/

/-- The full state: the filesystem, the runtime's name-keyed logger registry,
and the fields of one `Logger` configuration object. `live` is `self.logger`,
given as the name of the bound runtime instance (`logging.getLogger` returns
the per-name singleton, so the name determines the object); `nextId` is the
allocation counter for fresh handler objects. -/
structure LoggerState where
  fs : FS
  loggers : List (String × LoggerInst)
  module_name : String
  log_path : String
  log_level : String
  log_level_int : Nat
  live : Option String
  formatters : List (String × Formatter)
  handlers : List (String × Handler)
  nextId : Nat
deriving DecidableEq, Repr

/-- The handlers attached to the live logger (`self.logger.handlers`), empty
when no live logger is bound. -/
def attached (s : LoggerState) : List Handler :=
  match s.live with
  | some n => (getLoggerInst s.loggers n).hs
  | none => []

/-- The `setLevel` argument stored on the live logger. -/
def liveLevelArg (s : LoggerState) : Nat ⊕ String :=
  match s.live with
  | some n => (getLoggerInst s.loggers n).levelArg
  | none => Sum.inl 0

/-- Python `x or y` where `x` is an int and `y` a string: the int when it is
truthy (nonzero), the string otherwise. This is the expression
`_std_log_level(log_level) or self.log_level` of `setup_logger`. -/
def pyOrLevel (v : Nat) (stored : String) : Nat ⊕ String :=
  if v ≠ 0 then Sum.inl v else Sum.inr stored

/-- Python `x or y` on an optional string and a string: `None` and `""` are
falsy. This is `module_name or self.module_name` of `setup_logger`. -/
def pyOrStr (a : Option String) (b : String) : String :=
  match a with
  | none => b
  | some x => if x = "" then b else x

/-- Python `str(x)` on `str | None`. -/
def pyStr (a : Option String) : String :=
  match a with
  | none => "None"
  | some x => x

/-- `Logger.reset_handlers_logger`: detaches every handler from the live
logger (iterating over a copy of the list and removing each element), returns
`True` when a live logger is bound — also when its list is already empty —
and `False` otherwise. -/
def reset_handlers_logger (s : LoggerState) : Bool × LoggerState :=
  match s.live with
  | some n =>
    let inst := getLoggerInst s.loggers n
    if inst.hs.isEmpty then
      (true, s)
    else
      let inst' := { inst with hs := inst.hs.foldl (fun a h => eraseHandler a h) inst.hs }
      (true, { s with loggers := setLoggerInst s.loggers n inst' })
  | none => (false, s)

/-- `Logger.remove_handler_logger(handler_key)`: on a registry hit, detach the
registry value from the live logger and return `True`; on a miss return
`False`. `none` marks the `AttributeError` raised when the key is present but
no live logger is bound. -/
def remove_handler_logger (s : LoggerState) (handler_key : String) :
    Option (Bool × LoggerState) :=
  match dictLookup s.handlers handler_key with
  | some hd =>
    match s.live with
    | some n =>
      let lgs := setLoggerInst s.loggers n (removeHandler (getLoggerInst s.loggers n) hd)
      some (true, { s with loggers := lgs })
    | none => none
  | none => some (false, s)

/-- `Logger.add_handler_logger(handler_key)`: on a registry hit, attach the
registry value to the live logger and return `True`; on a miss return
`False`. `none` marks the `AttributeError` raised when the key is present but
no live logger is bound. -/
def add_handler_logger (s : LoggerState) (handler_key : String) :
    Option (Bool × LoggerState) :=
  match dictLookup s.handlers handler_key with
  | some hd =>
    match s.live with
    | some n =>
      let lgs := setLoggerInst s.loggers n (addHandler (getLoggerInst s.loggers n) hd)
      some (true, { s with loggers := lgs })
    | none => none
  | none => some (false, s)

/-- `Logger.get_handler(handler_key)`: a hit returns the registry value; a
miss runs three sequential (non-exclusive) `if` statements, so of the fallback
keys present in the registry the last-tested one wins: `rich_console_handler`
beats `file_handler`, which beats `console_handler`. `none` marks the
`UnboundLocalError` at `return h` when the key misses and none of the three
fallback keys exists. -/
def get_handler (handlers : List (String × Handler)) (handler_key : String) : Option Handler :=
  match dictLookup handlers handler_key with
  | some h => some h
  | none =>
    let h0 : Option Handler := none
    let h1 := if dictMem handlers "console_handler" then dictLookup handlers "console_handler" else h0
    let h2 := if dictMem handlers "file_handler" then dictLookup handlers "file_handler" else h1
    let h3 := if dictMem handlers "rich_console_handler" then
        dictLookup handlers "rich_console_handler"
      else h2
    h3

/-- `Logger.update_handlers_list(handler_key, handler)`: insert-or-overwrite
into the handler registry; the live logger is untouched. -/
def update_handlers_list (s : LoggerState) (handler_key : String) (handler : Handler) :
    LoggerState :=
  { s with handlers := dictInsert s.handlers handler_key handler }

/-- `Logger.reset_handlers_list`: empties the handler registry, then reseeds a
`console_handler` and a `file_handler` whose path is
`self.log_path + "/" + self.module_name` (note: no `".log"` suffix, unlike
construction). `none` marks the `KeyError` were `default_formatter` missing
from the formatter registry. -/
def reset_handlers_list (s : LoggerState) : Option LoggerState :=
  match dictLookup s.formatters "default_formatter" with
  | some fm =>
    let h1 := create_console_handler s.nextId s.log_level_int fm
    let h2 := create_file_handler (s.nextId + 1) s.log_level_int fm
      (s.log_path ++ "/" ++ s.module_name)
    some { s with
      handlers := dictInsert (dictInsert [] "console_handler" h1) "file_handler" h2,
      nextId := s.nextId + 2 }
  | none => none

/-- `Logger.get_formatter(formatter_key)`: a hit returns the registry value; a
miss (also a `None` key) falls back to `default_formatter`. `none` marks the
`KeyError` on the fallback line were `default_formatter` itself missing. -/
def get_formatter (formatters : List (String × Formatter)) (formatter_key : Option String) :
    Option Formatter :=
  match formatter_key.bind (fun k => dictLookup formatters k) with
  | some f => some f
  | none => dictLookup formatters "default_formatter"

/-- `Logger.update_formatters_list(formatter_key, formatter)`:
insert-or-overwrite into the formatter registry. -/
def update_formatters_list (s : LoggerState) (formatter_key : String) (formatter : Formatter) :
    LoggerState :=
  { s with formatters := dictInsert s.formatters formatter_key formatter }

/-- `Logger.reset_formatters_list`: empties the formatter registry and reseeds
`default_formatter` with the class-level `DEFAULT_FORMATTER`. -/
def reset_formatters_list (s : LoggerState) : LoggerState :=
  { s with formatters := dictInsert [] "default_formatter" DEFAULT_FORMATTER }

/-- `Logger.setup_logger(module_name, log_level)`: fetch (or create) the
runtime logger named `module_name or self.module_name`, pass
`_std_log_level(log_level) or self.log_level` to its `setLevel`, clear the
handlers of the current `self.logger` (the OLD live logger) via
`reset_handlers_logger`, set `propagate = False`, attach every handler of the
registry in insertion order, and bind `self.logger` to the fetched logger. -/
def setup_logger (s : LoggerState) (module_name : Option String) (log_level : Option String) :
    LoggerState :=
  let name := pyOrStr module_name s.module_name
  let inst0 := getLoggerInst s.loggers name
  let inst1 := { inst0 with levelArg := pyOrLevel (_std_log_level log_level) s.log_level }
  let s1 := { s with loggers := setLoggerInst s.loggers name inst1 }
  let s2 := (reset_handlers_logger s1).2
  let instA := getLoggerInst s2.loggers name
  let instB := { instA with propagate := false }
  let instC := attachAll instB s2.handlers
  { s2 with loggers := setLoggerInst s2.loggers name instC, live := some name }

/-- The body of `Logger.__init__` after `_derive_log_path` has resolved the
log directory to `resolved` (and the filesystem to `fs1`): seed the pydantic
fields, the formatter registry with `default_formatter`, the handler registry
with a `rich_console_handler` and a `file_handler` writing to
`resolved + "/" + module_name + ".log"`, then run
`setup_logger(module_name, str(log_level).upper())`. `loggers0` is the
runtime's logger registry at construction time. -/
def init_with_path (fs1 : FS) (loggers0 : List (String × LoggerInst)) (module_name : String)
    (resolved : String) (log_level : Option String) : LoggerState :=
  let log_level_str := pyUpper (pyStr log_level)
  let lvl := _std_log_level log_level
  let fmts := dictInsert [] "default_formatter" DEFAULT_FORMATTER
  let fm := (dictLookup fmts "default_formatter").getD DEFAULT_FORMATTER
  let h1 := create_rich_console_handler 0 lvl fm
  let h2 := create_file_handler 1 lvl fm (resolved ++ "/" ++ module_name ++ ".log")
  let s1 : LoggerState :=
    { fs := fs1, loggers := loggers0,
      module_name := module_name, log_path := resolved,
      log_level := log_level_str, log_level_int := lvl,
      live := none,
      formatters := fmts,
      handlers := dictInsert (dictInsert [] "rich_console_handler" h1) "file_handler" h2,
      nextId := 2 }
  setup_logger s1 (some module_name) (some log_level_str)

/-- `Logger.__init__(module_name, log_path, log_level)`: resolve the log
directory via `_derive_log_path` (a `RuntimeError` there aborts construction),
then run the rest of the constructor. -/
def Logger_init (fs : FS) (loggers0 : List (String × LoggerInst)) (module_name : String)
    (log_path : Option String) (log_level : Option String) : Except String LoggerState :=
  match _derive_log_path fs log_path with
  | Except.error e => Except.error e
  | Except.ok (resolved, fs1) =>
    Except.ok (init_with_path fs1 loggers0 module_name resolved log_level)

/-! ### Reachable states -/

/-- The states a `Logger` configuration object can be in: constructed (on a
fresh runtime logger registry) and then mutated by any sequence of public
operations, each taken on its non-raising path. -/
inductive Reachable : LoggerState → Prop where
  | init (fs : FS) (mn : String) (lp ll : Option String) (s : LoggerState) :
      Logger_init fs [] mn lp ll = Except.ok s → Reachable s
  | setup (s : LoggerState) (mn ll : Option String) :
      Reachable s → Reachable (setup_logger s mn ll)
  | resetHandlersLogger (s : LoggerState) :
      Reachable s → Reachable (reset_handlers_logger s).2
  | removeHandlerLogger (s : LoggerState) (k : String) (b : Bool) (s' : LoggerState) :
      Reachable s → remove_handler_logger s k = some (b, s') → Reachable s'
  | addHandlerLogger (s : LoggerState) (k : String) (b : Bool) (s' : LoggerState) :
      Reachable s → add_handler_logger s k = some (b, s') → Reachable s'
  | updateHandlersList (s : LoggerState) (k : String) (h : Handler) :
      Reachable s → Reachable (update_handlers_list s k h)
  | resetHandlersList (s : LoggerState) (s' : LoggerState) :
      Reachable s → reset_handlers_list s = some s' → Reachable s'
  | updateFormattersList (s : LoggerState) (k : String) (f : Formatter) :
      Reachable s → Reachable (update_formatters_list s k f)
  | resetFormattersList (s : LoggerState) :
      Reachable s → Reachable (reset_formatters_list s)

/-! ### Dictionary lemmas -/

theorem dictLookup_insert_self {α : Type} (d : List (String × α)) (k : String) (v : α) :
    dictLookup (dictInsert d k v) k = some v := by
  induction d with
  | nil => simp [dictInsert, dictLookup]
  | cons p t ih =>
    by_cases hp : p.1 = k
    · simp [dictInsert, dictLookup, hp]
    · simp [dictInsert, dictLookup, hp, ih]

theorem dictLookup_insert_ne {α : Type} (d : List (String × α)) (k k' : String) (v : α)
    (hne : k' ≠ k) : dictLookup (dictInsert d k v) k' = dictLookup d k' := by
  have hkk : k ≠ k' := fun h => hne h.symm
  induction d with
  | nil => simp only [dictInsert, dictLookup, if_neg hkk]
  | cons p t ih =>
    by_cases hp : p.1 = k
    · have hp' : p.1 ≠ k' := by rw [hp]; exact hkk
      simp only [dictInsert, if_pos hp, dictLookup, if_neg hkk, if_neg hp']
    · by_cases hp' : p.1 = k'
      · simp only [dictInsert, if_neg hp, dictLookup, if_pos hp']
      · simp only [dictInsert, if_neg hp, dictLookup, if_neg hp', ih]

theorem dictMem_eq_isSome_lookup {α : Type} (d : List (String × α)) (k : String) :
    dictMem d k = (dictLookup d k).isSome := by
  induction d with
  | nil => simp [dictMem, dictLookup]
  | cons p t ih =>
    by_cases hp : p.1 = k
    · simp [dictMem, dictLookup, hp]
    · simp [dictMem, dictLookup, hp, ← ih]

theorem dictMem_insert_of_mem {α : Type} (d : List (String × α)) (k k' : String) (v : α)
    (h : dictMem d k' = true) : dictMem (dictInsert d k v) k' = true := by
  by_cases hk : k' = k
  · subst hk
    simp [dictMem_eq_isSome_lookup, dictLookup_insert_self]
  · rw [dictMem_eq_isSome_lookup] at h ⊢
    rw [dictLookup_insert_ne d k k' v hk]
    exact h

/-! ### Logger-instance lemmas -/

theorem getLoggerInst_set_self (loggers : List (String × LoggerInst)) (n : String)
    (inst : LoggerInst) : getLoggerInst (setLoggerInst loggers n inst) n = inst := by
  simp [getLoggerInst, setLoggerInst, dictLookup_insert_self]

theorem getLoggerInst_set_ne (loggers : List (String × LoggerInst)) (n m : String)
    (inst : LoggerInst) (hne : m ≠ n) :
    getLoggerInst (setLoggerInst loggers n inst) m = getLoggerInst loggers m := by
  simp [getLoggerInst, setLoggerInst, dictLookup_insert_ne _ _ _ _ hne]

theorem eraseHandler_cons_self (x : Handler) (t : List Handler) :
    eraseHandler (x :: t) x = t := by
  simp [eraseHandler]

theorem foldl_eraseHandler_self (l : List Handler) :
    l.foldl (fun a h => eraseHandler a h) l = [] := by
  induction l with
  | nil => rfl
  | cons x t ih =>
    rw [List.foldl_cons, eraseHandler_cons_self]
    exact ih

theorem addHandler_levelArg (inst : LoggerInst) (h : Handler) :
    (addHandler inst h).levelArg = inst.levelArg := by
  unfold addHandler
  split <;> rfl

theorem mem_addHandler_hs (inst : LoggerInst) (h x : Handler) :
    x ∈ (addHandler inst h).hs ↔ x ∈ inst.hs ∨ x = h := by
  unfold addHandler
  split
  · constructor
    · exact fun hx => Or.inl hx
    · rintro (hx | rfl)
      · exact hx
      · assumption
  · simp

theorem addHandler_hs_congr (inst inst' : LoggerInst) (h : Handler)
    (hh : inst.hs = inst'.hs) : (addHandler inst h).hs = (addHandler inst' h).hs := by
  unfold addHandler
  rw [hh]
  split <;> simp [hh]

theorem attachAll_levelArg (registry : List (String × Handler)) (inst : LoggerInst) :
    (attachAll inst registry).levelArg = inst.levelArg := by
  induction registry generalizing inst with
  | nil => rfl
  | cons kv t ih =>
    unfold attachAll
    rw [List.foldl_cons]
    exact (ih (addHandler inst kv.2)).trans (addHandler_levelArg inst kv.2)

theorem mem_attachAll_hs (registry : List (String × Handler)) (inst : LoggerInst) (x : Handler) :
    x ∈ (attachAll inst registry).hs ↔ x ∈ inst.hs ∨ x ∈ dictValues registry := by
  induction registry generalizing inst with
  | nil => simp [attachAll, dictValues]
  | cons kv t ih =>
    unfold attachAll
    rw [List.foldl_cons]
    have := ih (addHandler inst kv.2)
    unfold attachAll at this
    rw [this, mem_addHandler_hs]
    simp [dictValues]
    tauto

theorem attachAll_hs_congr (registry : List (String × Handler)) (inst inst' : LoggerInst)
    (hh : inst.hs = inst'.hs) : (attachAll inst registry).hs = (attachAll inst' registry).hs := by
  induction registry generalizing inst inst' with
  | nil => exact hh
  | cons kv t ih =>
    unfold attachAll
    rw [List.foldl_cons, List.foldl_cons]
    exact ih (addHandler inst kv.2) (addHandler inst' kv.2) (addHandler_hs_congr _ _ _ hh)

/-! ### Characterization of `reset_handlers_logger` and `setup_logger` -/

theorem reset_handlers_logger_eq (s : LoggerState) :
    (reset_handlers_logger s).2 = { s with loggers := ((reset_handlers_logger s).2).loggers } := by
  cases hl : s.live with
  | none =>
    simp only [reset_handlers_logger, hl]
    rw [← hl]
  | some m =>
    simp only [reset_handlers_logger, hl]
    by_cases hemp : (getLoggerInst s.loggers m).hs.isEmpty = true
    · rw [if_pos hemp]
      try dsimp only
      try rw [← hl]
    · rw [if_neg hemp]
      try dsimp only
      try rw [← hl]

theorem reset_handlers_logger_getLoggerInst (s : LoggerState) (n : String) :
    getLoggerInst ((reset_handlers_logger s).2).loggers n =
      (if s.live = some n then { getLoggerInst s.loggers n with hs := [] }
       else getLoggerInst s.loggers n) := by
  cases hl : s.live with
  | none =>
    rw [if_neg (fun h => Option.noConfusion h)]
    simp only [reset_handlers_logger, hl]
  | some m =>
    simp only [reset_handlers_logger, hl, Option.some.injEq]
    by_cases hemp : (getLoggerInst s.loggers m).hs.isEmpty = true
    · rw [if_pos hemp]
      by_cases hnm : m = n
      · subst hnm
        rw [if_pos rfl]
        have h0 : (getLoggerInst s.loggers m).hs = [] := List.isEmpty_iff.mp hemp
        dsimp only
        rw [← h0]
      · rw [if_neg hnm]
    · rw [if_neg hemp]
      by_cases hnm : m = n
      · subst hnm
        rw [if_pos rfl]
        dsimp only
        rw [getLoggerInst_set_self, foldl_eraseHandler_self]
      · rw [if_neg hnm]
        dsimp only
        rw [getLoggerInst_set_ne _ _ _ _ (fun h => hnm h.symm)]

theorem setup_logger_live (s : LoggerState) (mn ll : Option String) :
    (setup_logger s mn ll).live = some (pyOrStr mn s.module_name) := by
  unfold setup_logger
  rfl

theorem setup_logger_fields (s : LoggerState) (mn ll : Option String) :
    (setup_logger s mn ll).handlers = s.handlers ∧
    (setup_logger s mn ll).formatters = s.formatters ∧
    (setup_logger s mn ll).module_name = s.module_name ∧
    (setup_logger s mn ll).log_path = s.log_path ∧
    (setup_logger s mn ll).log_level = s.log_level ∧
    (setup_logger s mn ll).log_level_int = s.log_level_int ∧
    (setup_logger s mn ll).nextId = s.nextId ∧
    (setup_logger s mn ll).fs = s.fs := by
  unfold setup_logger
  dsimp only
  rw [reset_handlers_logger_eq]
  exact ⟨rfl, rfl, rfl, rfl, rfl, rfl, rfl, rfl⟩

theorem setup_logger_getLoggerInst_live (s : LoggerState) (mn ll : Option String) :
    getLoggerInst (setup_logger s mn ll).loggers (pyOrStr mn s.module_name) =
      attachAll
        { levelArg := pyOrLevel (_std_log_level ll) s.log_level,
          hs := if s.live = some (pyOrStr mn s.module_name) then []
                else (getLoggerInst s.loggers (pyOrStr mn s.module_name)).hs,
          propagate := false }
        s.handlers := by
  unfold setup_logger
  dsimp only
  rw [getLoggerInst_set_self, reset_handlers_logger_eq]
  dsimp only
  rw [reset_handlers_logger_getLoggerInst]
  dsimp only
  rw [getLoggerInst_set_self]
  by_cases hlv : s.live = some (pyOrStr mn s.module_name)
  · rw [if_pos hlv, if_pos hlv]
  · rw [if_neg hlv, if_neg hlv]

theorem setup_logger_getLoggerInst_other (s : LoggerState) (mn ll : Option String) (m : String)
    (hm : m ≠ pyOrStr mn s.module_name) :
    getLoggerInst (setup_logger s mn ll).loggers m =
      (if s.live = some m then { getLoggerInst s.loggers m with hs := [] }
       else getLoggerInst s.loggers m) := by
  unfold setup_logger
  dsimp only
  rw [getLoggerInst_set_ne _ _ _ _ hm, reset_handlers_logger_getLoggerInst]
  dsimp only
  rw [getLoggerInst_set_ne _ _ _ _ hm]

theorem setup_logger_attached (s : LoggerState) (mn ll : Option String) :
    attached (setup_logger s mn ll) =
      (attachAll
        { levelArg := pyOrLevel (_std_log_level ll) s.log_level,
          hs := if s.live = some (pyOrStr mn s.module_name) then []
                else (getLoggerInst s.loggers (pyOrStr mn s.module_name)).hs,
          propagate := false }
        s.handlers).hs := by
  unfold attached
  rw [setup_logger_live]
  dsimp only
  rw [setup_logger_getLoggerInst_live]

theorem std_log_level_ne_zero (ll : Option String) : _std_log_level ll ≠ 0 := by
  unfold _std_log_level
  cases ll with
  | none => dsimp only; split <;> simp [DEBUG, INFO, WARNING, ERROR, CRITICAL]
  | some s => dsimp only; split <;> simp [DEBUG, INFO, WARNING, ERROR, CRITICAL]

theorem pyOrLevel_of_ne_zero (v : Nat) (stored : String) (h : v ≠ 0) :
    pyOrLevel v stored = Sum.inl v := by
  unfold pyOrLevel
  rw [if_pos h]

theorem setup_logger_liveLevelArg (s : LoggerState) (mn ll : Option String) :
    liveLevelArg (setup_logger s mn ll) = Sum.inl (_std_log_level ll) := by
  unfold liveLevelArg
  rw [setup_logger_live]
  dsimp only
  rw [setup_logger_getLoggerInst_live, attachAll_levelArg]
  exact pyOrLevel_of_ne_zero _ _ (std_log_level_ne_zero ll)

/-! ### The state invariant and its preservation -/

/-- The part of the state invariant that does not mention the live binding:
the formatter registry holds `default_formatter`, the handler registry holds
`file_handler`, and every runtime logger other than the live one has no
attached handlers. -/
def InvCore (s : LoggerState) : Prop :=
  dictMem s.formatters "default_formatter" = true ∧
  dictMem s.handlers "file_handler" = true ∧
  ∀ n, s.live ≠ some n → (getLoggerInst s.loggers n).hs = []

/-- The state invariant: a live logger is bound, and `InvCore` holds. -/
def Inv (s : LoggerState) : Prop :=
  s.live.isSome = true ∧ InvCore s

theorem setup_logger_inv (s : LoggerState) (mn ll : Option String) (h : InvCore s) :
    Inv (setup_logger s mn ll) := by
  refine ⟨?_, ?_, ?_, ?_⟩
  · rw [setup_logger_live]
    rfl
  · rw [(setup_logger_fields s mn ll).2.1]
    exact h.1
  · rw [(setup_logger_fields s mn ll).1]
    exact h.2.1
  · intro n hn
    rw [setup_logger_live] at hn
    have hne : n ≠ pyOrStr mn s.module_name := fun he => hn (by rw [he])
    rw [setup_logger_getLoggerInst_other s mn ll n hne]
    by_cases hlv : s.live = some n
    · rw [if_pos hlv]
    · rw [if_neg hlv]
      exact h.2.2 n hlv

theorem init_with_path_inv (fs1 : FS) (mn p : String) (ll : Option String) :
    Inv (init_with_path fs1 [] mn p ll) := by
  unfold init_with_path
  dsimp only
  apply setup_logger_inv
  refine ⟨rfl, rfl, ?_⟩
  intro n _
  rfl

theorem reachable_inv (s : LoggerState) (h : Reachable s) : Inv s := by
  induction h with
  | init fs mn lp ll s hinit =>
    unfold Logger_init at hinit
    rcases hd : _derive_log_path fs lp with e | ⟨resolved, fs1⟩
    · rw [hd] at hinit
      cases hinit
    · rw [hd] at hinit
      dsimp only at hinit
      injection hinit with h2
      subst h2
      exact init_with_path_inv fs1 mn resolved ll
  | setup s mn ll _ ih =>
    exact setup_logger_inv s mn ll ih.2
  | resetHandlersLogger s _ ih =>
    rw [reset_handlers_logger_eq]
    refine ⟨ih.1, ih.2.1, ih.2.2.1, ?_⟩
    intro n hn
    rw [← reset_handlers_logger_eq, reset_handlers_logger_getLoggerInst, if_neg hn]
    exact ih.2.2.2 n hn
  | removeHandlerLogger s k b s' _ hstep ih =>
    unfold remove_handler_logger at hstep
    cases hk : dictLookup s.handlers k with
    | none =>
      rw [hk] at hstep
      dsimp only at hstep
      simp only [Option.some.injEq, Prod.mk.injEq] at hstep
      obtain ⟨_, hs'⟩ := hstep
      subst hs'
      exact ih
    | some hd =>
      rw [hk] at hstep
      dsimp only at hstep
      cases hl : s.live with
      | none =>
        rw [hl] at hstep
        cases hstep
      | some n =>
        rw [hl] at hstep
        dsimp only at hstep
        simp only [Option.some.injEq, Prod.mk.injEq] at hstep
        obtain ⟨_, hs'⟩ := hstep
        subst hs'
        refine ⟨rfl, ih.2.1, ih.2.2.1, ?_⟩
        intro m hm
        have hm' : some n ≠ some m := hm
        have hmn : m ≠ n := fun he => hm' (by rw [he])
        show (getLoggerInst (setLoggerInst s.loggers n _) m).hs = []
        rw [getLoggerInst_set_ne _ _ _ _ hmn]
        exact ih.2.2.2 m (by rw [hl]; exact hm')
  | addHandlerLogger s k b s' _ hstep ih =>
    unfold add_handler_logger at hstep
    cases hk : dictLookup s.handlers k with
    | none =>
      rw [hk] at hstep
      dsimp only at hstep
      simp only [Option.some.injEq, Prod.mk.injEq] at hstep
      obtain ⟨_, hs'⟩ := hstep
      subst hs'
      exact ih
    | some hd =>
      rw [hk] at hstep
      dsimp only at hstep
      cases hl : s.live with
      | none =>
        rw [hl] at hstep
        cases hstep
      | some n =>
        rw [hl] at hstep
        dsimp only at hstep
        simp only [Option.some.injEq, Prod.mk.injEq] at hstep
        obtain ⟨_, hs'⟩ := hstep
        subst hs'
        refine ⟨rfl, ih.2.1, ih.2.2.1, ?_⟩
        intro m hm
        have hm' : some n ≠ some m := hm
        have hmn : m ≠ n := fun he => hm' (by rw [he])
        show (getLoggerInst (setLoggerInst s.loggers n _) m).hs = []
        rw [getLoggerInst_set_ne _ _ _ _ hmn]
        exact ih.2.2.2 m (by rw [hl]; exact hm')
  | updateHandlersList s k h _ ih =>
    exact ⟨ih.1, ih.2.1, dictMem_insert_of_mem s.handlers k "file_handler" h ih.2.2.1, ih.2.2.2⟩
  | resetHandlersList s s' _ hstep ih =>
    unfold reset_handlers_list at hstep
    cases hf : dictLookup s.formatters "default_formatter" with
    | none =>
      rw [hf] at hstep
      cases hstep
    | some fm =>
      rw [hf] at hstep
      dsimp only at hstep
      injection hstep with h2
      subst h2
      exact ⟨ih.1, ih.2.1, rfl, ih.2.2.2⟩
  | updateFormattersList s k f _ ih =>
    exact ⟨ih.1, dictMem_insert_of_mem s.formatters k "default_formatter" f ih.2.1, ih.2.2.1,
      ih.2.2.2⟩
  | resetFormattersList s _ ih =>
    exact ⟨ih.1, rfl, ih.2.2.1, ih.2.2.2⟩

/-! ### Characterization of the constructed state -/

theorem init_with_path_live (fs1 : FS) (l0 : List (String × LoggerInst)) (mn p : String)
    (ll : Option String) : (init_with_path fs1 l0 mn p ll).live = some mn := by
  unfold init_with_path
  dsimp only
  rw [setup_logger_live]
  dsimp only
  rw [pyOrStr, ite_self]

theorem init_with_path_handlers (fs1 : FS) (l0 : List (String × LoggerInst)) (mn p : String)
    (ll : Option String) :
    (init_with_path fs1 l0 mn p ll).handlers =
      [("rich_console_handler",
         create_rich_console_handler 0 (_std_log_level ll) DEFAULT_FORMATTER),
       ("file_handler",
         create_file_handler 1 (_std_log_level ll) DEFAULT_FORMATTER
           (p ++ "/" ++ mn ++ ".log"))] := by
  unfold init_with_path
  dsimp only
  rw [(setup_logger_fields _ _ _).1]
  rfl

theorem init_with_path_formatters (fs1 : FS) (l0 : List (String × LoggerInst)) (mn p : String)
    (ll : Option String) :
    (init_with_path fs1 l0 mn p ll).formatters = [("default_formatter", DEFAULT_FORMATTER)] := by
  unfold init_with_path
  dsimp only
  rw [(setup_logger_fields _ _ _).2.1]
  rfl

theorem init_with_path_module_name (fs1 : FS) (l0 : List (String × LoggerInst)) (mn p : String)
    (ll : Option String) : (init_with_path fs1 l0 mn p ll).module_name = mn := by
  unfold init_with_path
  dsimp only
  rw [(setup_logger_fields _ _ _).2.2.1]

theorem init_with_path_log_path (fs1 : FS) (l0 : List (String × LoggerInst)) (mn p : String)
    (ll : Option String) : (init_with_path fs1 l0 mn p ll).log_path = p := by
  unfold init_with_path
  dsimp only
  rw [(setup_logger_fields _ _ _).2.2.2.1]

theorem init_with_path_levelArg (fs1 : FS) (l0 : List (String × LoggerInst)) (mn p : String)
    (ll : Option String) :
    liveLevelArg (init_with_path fs1 l0 mn p ll) =
      Sum.inl (_std_log_level (some (pyUpper (pyStr ll)))) := by
  unfold init_with_path
  dsimp only
  rw [setup_logger_liveLevelArg]

theorem init_with_path_attached (fs1 : FS) (mn p : String) (ll : Option String) :
    attached (init_with_path fs1 [] mn p ll) =
      [create_rich_console_handler 0 (_std_log_level ll) DEFAULT_FORMATTER,
       create_file_handler 1 (_std_log_level ll) DEFAULT_FORMATTER (p ++ "/" ++ mn ++ ".log")] := by
  unfold init_with_path
  dsimp only
  rw [setup_logger_attached]
  dsimp only
  rw [if_neg (fun hx => Option.noConfusion hx)]
  rfl

/-! ### Concrete example states -/

/-- A filesystem with nothing in it, on which construction succeeds. -/
def exFS : FS := { cwd := "/app", existing := [], mkdirOk := true }

/-- `exFS` after `_derive_log_path` has created the `logs` directory. -/
def exFS1 : FS := { cwd := "/app", existing := ["/app/logs"], mkdirOk := true }

/-- A filesystem on which the candidate directory `/app/data` exists. -/
def exFS2 : FS := { cwd := "/app", existing := ["/app/data"], mkdirOk := true }

/-- The state of `Logger("T")` built on `exFS`. -/
def exInitState : LoggerState := init_with_path exFS1 [] "T" "/app/logs" (some "DEBUG")

theorem exInitState_reachable : Reachable exInitState :=
  Reachable.init exFS "T" none (some "DEBUG") exInitState rfl

/-! ### The claims -/

/-- C3: `_std_log_level` maps a string matching one of the five severity
names case-insensitively to that name's numeric constant; an absent (`None`)
input yields DEBUG's value, exactly as if `"DEBUG"` had been supplied; any
other non-empty unmatched string yields INFO's value. -/
theorem std_log_level_spec :
    (∀ s : String, pyUpper s = "DEBUG" → _std_log_level (some s) = DEBUG) ∧
    (∀ s : String, pyUpper s = "INFO" → _std_log_level (some s) = INFO) ∧
    (∀ s : String, pyUpper s = "WARNING" → _std_log_level (some s) = WARNING) ∧
    (∀ s : String, pyUpper s = "ERROR" → _std_log_level (some s) = ERROR) ∧
    (∀ s : String, pyUpper s = "CRITICAL" → _std_log_level (some s) = CRITICAL) ∧
    (_std_log_level none = DEBUG ∧ _std_log_level none = _std_log_level (some "DEBUG")) ∧
    (∀ s : String, s ≠ "" → pyUpper s ≠ "DEBUG" → pyUpper s ≠ "INFO" → pyUpper s ≠ "WARNING" →
      pyUpper s ≠ "ERROR" → pyUpper s ≠ "CRITICAL" → _std_log_level (some s) = INFO) := by
  refine ⟨?_, ?_, ?_, ?_, ?_, ⟨by rfl, by rfl⟩, ?_⟩
  · intro s h
    unfold _std_log_level
    dsimp only
    rw [h]
    rfl
  · intro s h
    unfold _std_log_level
    dsimp only
    rw [h]
    rfl
  · intro s h
    unfold _std_log_level
    dsimp only
    rw [h]
    rfl
  · intro s h
    unfold _std_log_level
    dsimp only
    rw [h]
    rfl
  · intro s h
    unfold _std_log_level
    dsimp only
    rw [h]
    rfl
  · intro s _ h1 h2 h3 h4 h5
    unfold _std_log_level
    dsimp only
    split
    · exact absurd (by assumption) h1
    · exact absurd (by assumption) h2
    · exact absurd (by assumption) h3
    · exact absurd (by assumption) h4
    · exact absurd (by assumption) h5
    · rfl

/-- C3 witness: `"debug"` maps to DEBUG, `"Error"` to ERROR, and the
unmatched non-empty string `"warn"` falls through to INFO. -/
theorem std_log_level_spec_witness :
    _std_log_level (some "debug") = DEBUG ∧ _std_log_level (some "Error") = ERROR ∧
    _std_log_level (some "warn") = INFO :=
  ⟨std_log_level_spec.1 "debug" (by decide),
   std_log_level_spec.2.2.2.1 "Error" (by decide),
   std_log_level_spec.2.2.2.2.2.2 "warn" (by decide) (by decide) (by decide) (by decide)
     (by decide) (by decide)⟩

/-- C5: `_derive_log_path` with an absent candidate, or one for which
`cwd + "/" + candidate` does not exist, creates (if missing) and returns the
directory `cwd + "/logs"`, raising a fatal `RuntimeError` if that creation
fails; with an existing candidate it returns `cwd + "/" + candidate` with the
filesystem untouched. -/
theorem derive_log_path_spec (fs : FS) (cand : Option String) :
    ((cand = none ∨ ∃ p, cand = some p ∧ _check_path fs (fs.cwd ++ "/" ++ p) = false) →
      ((∃ fs', _derive_log_path fs cand = Except.ok (fs.cwd ++ "/logs", fs') ∧
          _check_path fs' (fs.cwd ++ "/logs") = true) ∨
        (fs.mkdirOk = false ∧ ∃ e, _derive_log_path fs cand = Except.error e))) ∧
    (∀ p, cand = some p → _check_path fs (fs.cwd ++ "/" ++ p) = true →
      _derive_log_path fs cand = Except.ok (fs.cwd ++ "/" ++ p, fs)) := by
  constructor
  · intro hm
    have hfb :
        (∃ fs', (if _check_path fs (fs.cwd ++ "/logs") = true then
            Except.ok (fs.cwd ++ "/logs", fs)
          else if fs.mkdirOk = true then
            Except.ok (fs.cwd ++ "/logs", { fs with existing := (fs.cwd ++ "/logs") :: fs.existing })
          else
            (Except.error "Error resolving log path" : Except String (String × FS))) =
              Except.ok (fs.cwd ++ "/logs", fs') ∧
          _check_path fs' (fs.cwd ++ "/logs") = true) ∨
        (fs.mkdirOk = false ∧ ∃ e,
          (if _check_path fs (fs.cwd ++ "/logs") = true then
            Except.ok (fs.cwd ++ "/logs", fs)
          else if fs.mkdirOk = true then
            Except.ok (fs.cwd ++ "/logs", { fs with existing := (fs.cwd ++ "/logs") :: fs.existing })
          else
            (Except.error "Error resolving log path" : Except String (String × FS))) =
              Except.error e) := by
      by_cases hex : _check_path fs (fs.cwd ++ "/logs") = true
      · exact Or.inl ⟨fs, by rw [if_pos hex], hex⟩
      · by_cases hmk : fs.mkdirOk = true
        · refine Or.inl ⟨{ fs with existing := (fs.cwd ++ "/logs") :: fs.existing },
            by rw [if_neg hex, if_pos hmk], ?_⟩
          simp [_check_path]
        · refine Or.inr ⟨by rwa [Bool.not_eq_true] at hmk, "Error resolving log path", ?_⟩
          rw [if_neg hex, if_neg hmk]
    rcases hm with hce | ⟨p, hcp, hnc⟩
    · subst hce
      exact hfb
    · subst hcp
      unfold _derive_log_path
      dsimp only
      rw [if_neg (by rw [hnc]; exact Bool.false_ne_true)]
      exact hfb
  · intro p hp hc
    subst hp
    unfold _derive_log_path
    dsimp only
    rw [if_pos hc]

/-- C5 witness: on a filesystem where `/app/data` exists, the candidate
`"data"` resolves to `/app/data` unchanged. -/
theorem derive_log_path_spec_witness :
    _derive_log_path exFS2 (some "data") = Except.ok (exFS2.cwd ++ "/" ++ "data", exFS2) :=
  (derive_log_path_spec exFS2 (some "data")).2 "data" rfl (by decide)

/-- C8: the live logger's severity threshold set by `setup_logger` is always
the numeric mapping of the `log_level` argument (an absent argument mapping
to DEBUG): the expression `_std_log_level(log_level) or self.log_level` never
falls through to the stored `self.log_level`, because the mapper never
returns zero. In particular `setup_logger(name, None)` stores DEBUG whatever
the configured severity is. -/
theorem setup_level_ignores_stored :
    (∀ (s : LoggerState) (mn ll : Option String),
      liveLevelArg (setup_logger s mn ll) = Sum.inl (_std_log_level ll)) ∧
    (∀ (s : LoggerState) (mn : Option String),
      liveLevelArg (setup_logger s mn none) = Sum.inl DEBUG) := by
  constructor
  · exact fun s mn ll => setup_logger_liveLevelArg s mn ll
  · intro s mn
    rw [setup_logger_liveLevelArg s mn none]
    rfl

/-- C1: after any `setup_logger` call on a reachable state, the handlers
attached to the live logger are exactly the values of the handler registry:
every registry value is attached and nothing else is. -/
theorem setup_logger_syncs_attached (s : LoggerState) (hr : Reachable s) (mn ll : Option String)
    (h : Handler) :
    h ∈ attached (setup_logger s mn ll) ↔
      h ∈ dictValues (setup_logger s mn ll).handlers := by
  rw [setup_logger_attached, (setup_logger_fields s mn ll).1, mem_attachAll_hs]
  have hz : (if s.live = some (pyOrStr mn s.module_name) then ([] : List Handler)
      else (getLoggerInst s.loggers (pyOrStr mn s.module_name)).hs) = [] := by
    by_cases hlv : s.live = some (pyOrStr mn s.module_name)
    · rw [if_pos hlv]
    · rw [if_neg hlv]
      exact (reachable_inv s hr).2.2.2 _ hlv
  dsimp only
  rw [hz]
  simp

/-- C1 witness: the rich-console handler seeded at construction is attached
after a further `setup_logger` call on the constructed state, and it is a
registry value there. -/
theorem setup_logger_syncs_attached_witness :
    create_rich_console_handler 0 10 DEFAULT_FORMATTER ∈
        attached (setup_logger exInitState none none) ↔
      create_rich_console_handler 0 10 DEFAULT_FORMATTER ∈
        dictValues (setup_logger exInitState none none).handlers :=
  setup_logger_syncs_attached exInitState exInitState_reachable none none
    (create_rich_console_handler 0 10 DEFAULT_FORMATTER)

/-- C6: `setup_logger` is idempotent: calling it twice in succession with the
same arguments and no registry mutation in between leaves the live logger
with the same attached-handler list as after the first call. -/
theorem setup_logger_idempotent (s : LoggerState) (hr : Reachable s) (mn ll : Option String) :
    attached (setup_logger (setup_logger s mn ll) mn ll) = attached (setup_logger s mn ll) := by
  rw [setup_logger_attached (setup_logger s mn ll) mn ll, setup_logger_attached s mn ll,
    (setup_logger_fields s mn ll).1]
  apply attachAll_hs_congr
  dsimp only
  rw [(setup_logger_fields s mn ll).2.2.1, setup_logger_live, if_pos rfl]
  by_cases hlv : s.live = some (pyOrStr mn s.module_name)
  · rw [if_pos hlv]
  · rw [if_neg hlv]
    exact ((reachable_inv s hr).2.2.2 _ hlv).symm

/-- C6 witness: two successive `setup_logger` calls on the constructed state
with the same arguments yield the same attached list. -/
theorem setup_logger_idempotent_witness :
    attached (setup_logger (setup_logger exInitState none none) none none) =
      attached (setup_logger exInitState none none) :=
  setup_logger_idempotent exInitState exInitState_reachable none none

/-- C7: `add_handler_logger` on a key absent from the handler registry
returns `False` and leaves the whole state (hence the attached-handler count
and the registry) unchanged; on a present key it attaches that registry value
to the live logger and returns `True`, without mutating the registry. -/
theorem add_handler_logger_spec (s : LoggerState) (hr : Reachable s) (key : String) :
    (dictLookup s.handlers key = none → add_handler_logger s key = some (false, s)) ∧
    (∀ hd, dictLookup s.handlers key = some hd →
      ∃ s', add_handler_logger s key = some (true, s') ∧ s'.handlers = s.handlers ∧
        hd ∈ attached s') := by
  constructor
  · intro hmiss
    unfold add_handler_logger
    rw [hmiss]
  · intro hd hhit
    have hlive := (reachable_inv s hr).1
    cases hl : s.live with
    | none =>
      rw [hl] at hlive
      simp at hlive
    | some n =>
      refine ⟨{ s with
          loggers := setLoggerInst s.loggers n (addHandler (getLoggerInst s.loggers n) hd) },
        ?_, rfl, ?_⟩
      · unfold add_handler_logger
        rw [hhit]
        dsimp only
        rw [hl]
      · unfold attached
        dsimp only
        rw [hl]
        dsimp only
        rw [getLoggerInst_set_self]
        exact (mem_addHandler_hs _ hd hd).mpr (Or.inr rfl)

/-- C7 witness: on the constructed state, the key `"nonexistent"` yields
`False` with the state unchanged, and the key `"file_handler"` yields `True`
with its registry value attached. -/
theorem add_handler_logger_spec_witness :
    add_handler_logger exInitState "nonexistent" = some (false, exInitState) ∧
    ∃ s', add_handler_logger exInitState "file_handler" = some (true, s') ∧
      s'.handlers = exInitState.handlers ∧
      create_file_handler 1 10 DEFAULT_FORMATTER "/app/logs/T.log" ∈ attached s' := by
  constructor
  · exact (add_handler_logger_spec exInitState exInitState_reachable "nonexistent").1 (by decide)
  · exact (add_handler_logger_spec exInitState exInitState_reachable "file_handler").2
      (create_file_handler 1 10 DEFAULT_FORMATTER "/app/logs/T.log") (by decide)

/-- C9: on every reachable state the formatter registry contains the key
`default_formatter` (construction seeds it, upserts only add, the reset
reseeds it, and no operation removes a single formatter), hence
`get_formatter` returns a formatter and never raises, whatever the key. -/
theorem default_formatter_always_present (s : LoggerState) (hr : Reachable s) :
    dictMem s.formatters "default_formatter" = true ∧
    ∀ key : Option String, (get_formatter s.formatters key).isSome = true := by
  have hdf := (reachable_inv s hr).2.1
  refine ⟨hdf, ?_⟩
  intro key
  unfold get_formatter
  cases hk : key.bind (fun k => dictLookup s.formatters k) with
  | some f => rfl
  | none =>
    dsimp only
    rw [← dictMem_eq_isSome_lookup]
    exact hdf

/-- C9 witness: on the constructed state, looking up an unknown formatter key
still yields a formatter. -/
theorem default_formatter_always_present_witness :
    (get_formatter exInitState.formatters (some "nope")).isSome = true :=
  (default_formatter_always_present exInitState exInitState_reachable).2 (some "nope")

/-- A reachable state whose handler registry holds all three fallback keys:
construction, then `reset_handlers_list` (seeding `console_handler` and
`file_handler`), then an upsert of a user-created `rich_console_handler`. -/
def cexRegistryState : LoggerState :=
  update_handlers_list ((reset_handlers_list exInitState).getD exInitState)
    "rich_console_handler" (create_rich_console_handler 99 10 DEFAULT_FORMATTER)

theorem cexRegistryState_reachable : Reachable cexRegistryState :=
  Reachable.updateHandlersList _ "rich_console_handler"
    (create_rich_console_handler 99 10 DEFAULT_FORMATTER)
    (Reachable.resetHandlersList exInitState _ exInitState_reachable rfl)

/-- C2 counterexample: on a reachable registry holding `console_handler`,
`file_handler` and `rich_console_handler`, a missing key makes `get_handler`
return the rich-console entry, not the console entry the claimed
console-first priority order would pick: the sequential non-exclusive `if`
statements make the last-tested key win. -/
theorem get_handler_priority_counterexample :
    dictMem cexRegistryState.handlers "console_handler" = true ∧
    dictMem cexRegistryState.handlers "file_handler" = true ∧
    dictMem cexRegistryState.handlers "rich_console_handler" = true ∧
    dictLookup cexRegistryState.handlers "missing" = none ∧
    get_handler cexRegistryState.handlers "missing" =
      some (create_rich_console_handler 99 10 DEFAULT_FORMATTER) ∧
    get_handler cexRegistryState.handlers "missing" ≠
      dictLookup cexRegistryState.handlers "console_handler" := by
  decide

/-- C2 amended: on a miss, `get_handler` returns the registry entry of the
highest-priority fallback key present in the order rich-console first, then
file, then console; it never raises on a miss in a reachable state, because
`file_handler` is always present there. -/
theorem get_handler_fallback_priority (s : LoggerState) (hr : Reachable s) (key : String)
    (hmiss : dictLookup s.handlers key = none) :
    get_handler s.handlers key =
      (if dictMem s.handlers "rich_console_handler" = true then
        dictLookup s.handlers "rich_console_handler"
      else if dictMem s.handlers "file_handler" = true then
        dictLookup s.handlers "file_handler"
      else if dictMem s.handlers "console_handler" = true then
        dictLookup s.handlers "console_handler"
      else none) ∧
    (get_handler s.handlers key).isSome = true := by
  have hfile : dictMem s.handlers "file_handler" = true := (reachable_inv s hr).2.2.1
  have hch : get_handler s.handlers key =
      (if dictMem s.handlers "rich_console_handler" = true then
        dictLookup s.handlers "rich_console_handler"
      else if dictMem s.handlers "file_handler" = true then
        dictLookup s.handlers "file_handler"
      else if dictMem s.handlers "console_handler" = true then
        dictLookup s.handlers "console_handler"
      else none) := by
    unfold get_handler
    rw [hmiss]
  refine ⟨hch, ?_⟩
  rw [hch]
  by_cases h3 : dictMem s.handlers "rich_console_handler" = true
  · rw [if_pos h3, ← dictMem_eq_isSome_lookup]
    exact h3
  · rw [if_neg h3, if_pos hfile, ← dictMem_eq_isSome_lookup]
    exact hfile

/-- C2 amended witness: on the constructed state (registry holds rich-console
and file), the missing key `"missing"` falls back to the rich-console
entry. -/
theorem get_handler_fallback_priority_witness :
    get_handler exInitState.handlers "missing" =
      some (create_rich_console_handler 0 10 DEFAULT_FORMATTER) := by
  have h := get_handler_fallback_priority exInitState exInitState_reachable "missing" (by decide)
  rw [h.1]
  decide

/-- C4: after `Logger("T")` with defaults, the live logger is bound to `"T"`,
its threshold argument is the numeric DEBUG value, and exactly two handlers
are attached: a rich-console one and a file one writing to
`log_path + "/" + "T" + ".log"` (the resolved directory joined with the
module name). -/
theorem construct_default_state (fs : FS) (s : LoggerState)
    (h : Logger_init fs [] "T" none (some "DEBUG") = Except.ok s) :
    s.live = some "T" ∧
    liveLevelArg s = Sum.inl DEBUG ∧
    (attached s).length = 2 ∧
    ∃ hr hf, attached s = [hr, hf] ∧ hr.kind = HandlerKind.richConsole ∧
      hf.kind = HandlerKind.file (s.log_path ++ "/" ++ "T" ++ ".log") := by
  unfold Logger_init at h
  rcases hd : _derive_log_path fs none with e | ⟨resolved, fs1⟩
  · rw [hd] at h
    cases h
  · rw [hd] at h
    dsimp only at h
    injection h with h2
    subst h2
    refine ⟨init_with_path_live fs1 [] "T" resolved (some "DEBUG"), ?_, ?_, ?_⟩
    · rw [init_with_path_levelArg]
      rfl
    · rw [init_with_path_attached]
      rfl
    · rw [init_with_path_attached, init_with_path_log_path]
      exact ⟨_, _, rfl, rfl, rfl⟩

/-- C4 witness: the concrete construction of `Logger("T")` on an empty
filesystem. -/
theorem construct_default_state_witness :
    exInitState.live = some "T" ∧ liveLevelArg exInitState = Sum.inl DEBUG ∧
    (attached exInitState).length = 2 := by
  have h := construct_default_state exFS exInitState rfl
  exact ⟨h.1, h.2.1, h.2.2.1⟩

/-- C10: the file handler reseeded by `reset_handlers_list` writes to
`log_path + "/" + module_name`, without the `".log"` suffix, while the file
handler created at construction writes to
`log_path + "/" + module_name + ".log"`; the two paths differ. -/
theorem reset_file_path_differs (fs1 : FS) (l0 : List (String × LoggerInst)) (mn p : String)
    (ll : Option String) (s1 : LoggerState)
    (hreset : reset_handlers_list (init_with_path fs1 l0 mn p ll) = some s1) :
    (∃ hg, dictLookup (init_with_path fs1 l0 mn p ll).handlers "file_handler" = some hg ∧
      hg.kind = HandlerKind.file (p ++ "/" ++ mn ++ ".log")) ∧
    (∃ hf, dictLookup s1.handlers "file_handler" = some hf ∧
      hf.kind = HandlerKind.file (p ++ "/" ++ mn)) ∧
    (p ++ "/" ++ mn) ≠ (p ++ "/" ++ mn ++ ".log") := by
  refine ⟨?_, ?_, ?_⟩
  · rw [init_with_path_handlers]
    exact ⟨create_file_handler 1 (_std_log_level ll) DEFAULT_FORMATTER (p ++ "/" ++ mn ++ ".log"),
      rfl, rfl⟩
  · unfold reset_handlers_list at hreset
    rw [init_with_path_formatters] at hreset
    rw [show dictLookup [("default_formatter", DEFAULT_FORMATTER)] "default_formatter" =
        some DEFAULT_FORMATTER from rfl] at hreset
    dsimp only at hreset
    injection hreset with h2
    subst h2
    rw [init_with_path_log_path, init_with_path_module_name]
    exact ⟨_, rfl, rfl⟩
  · intro heq
    have hlen := congrArg String.length heq
    simp [String.length_append] at hlen
    exact absurd hlen (by decide)

/-- C10 witness: the two concrete paths for `Logger("T")` differ. -/
theorem reset_file_path_differs_witness :
    ("/app/logs" ++ "/" ++ "T") ≠ ("/app/logs" ++ "/" ++ "T" ++ ".log") :=
  (reset_file_path_differs exFS1 [] "T" "/app/logs" (some "DEBUG")
    ((reset_handlers_list exInitState).getD exInitState) rfl).2.2

end PyLogger
